import Mathlib

set_option maxRecDepth 20000

/-!
Shallow embedding of the invoice server actions of this repository
(`dbtest.js`): the Zod form schema, the JavaScript number semantics used by
`z.coerce.number()` and by the `amount * 100` derivation, the SQL statements
as state transformers over a list of invoice rows, and the control flow of
`createInvoice`, `updateInvoice`, `deleteInvoice` and `authenticate`,
including the non-local exit performed by `redirect` and the `try`/`catch`
around the single SQL statement of each action.
-/

/-! ### IEEE-754 binary64 arithmetic over exact rationals

JavaScript numbers are IEEE-754 binary64 values.  Every such value is
represented here by the exact rational it denotes, and an arithmetic
operation is modelled as the exact rational operation followed by rounding
to 53 significant bits (round to nearest, ties to even).  All values arising
in this development are in the normal range, so subnormals and overflow are
not modelled. -/

/-! The standard rational operations of Batteries (`Rat.mul`, `Rat.add`,
`Rat.inv`, …) are `@[irreducible]`, so the kernel-evaluated `decide` cannot
compute with them.  The model therefore performs its arithmetic through the
following `mkRat`-based operations; each is proved equal to the standard
operation on `ℚ` directly below its definition, so every statement about the
model can be read through ordinary rational arithmetic. -/

/-- Kernel-computable multiplication on `ℚ`. -/
def qMul (a b : ℚ) : ℚ := mkRat (a.num * b.num) (a.den * b.den)

/-- Kernel-computable addition on `ℚ`. -/
def qAdd (a b : ℚ) : ℚ := mkRat (a.num * b.den + b.num * a.den) (a.den * b.den)

/-- Kernel-computable inverse on `ℚ`. -/
def qInv (a : ℚ) : ℚ := Rat.divInt (a.den : Int) a.num

/-- Kernel-computable division on `ℚ`. -/
def qDiv (a b : ℚ) : ℚ := qMul a (qInv b)

/-- Kernel-computable subtraction on `ℚ`. -/
def qSub (a b : ℚ) : ℚ := qAdd a (-b)

/-- Kernel-computable embedding of an integer into `ℚ`. -/
def qOfInt (n : Int) : ℚ := mkRat n 1

/-- Kernel-computable embedding of a natural number into `ℚ`. -/
def qOfNat (n : Nat) : ℚ := mkRat (n : Int) 1

/-- Kernel-computable `1 / 2`. -/
def qHalf : ℚ := mkRat 1 2

/-- Fuel-driven base-2 logarithm on naturals: largest `l` with `2 ^ l ≤ n`
(and `0` for `n = 0`).  Structural recursion on the fuel so that the kernel
reduces it. -/
def log2fuel : Nat → Nat → Nat
  | 0, _ => 0
  | fuel + 1, n => if 2 ≤ n then log2fuel fuel (n / 2) + 1 else 0

/-- `2 ^ e` as a rational, for an integer exponent. -/
def pow2z (e : Int) : ℚ :=
  if 0 ≤ e then mkRat ((2 : Int) ^ e.toNat) 1 else mkRat 1 (2 ^ (-e).toNat)

/-- Binary exponent of a positive rational `q`: the `e` with
`2 ^ e ≤ q < 2 ^ (e + 1)`, located around the difference of the bit lengths
of numerator and denominator. -/
def exp2 (q : ℚ) : Int :=
  let a : Int := log2fuel 4096 q.num.toNat
  let b : Int := log2fuel 4096 q.den
  let e0 : Int := a - b
  if pow2z (e0 + 1) ≤ q then e0 + 1
  else if pow2z e0 ≤ q then e0
  else if pow2z (e0 - 1) ≤ q then e0 - 1
  else e0 - 2

/-- Round a rational to the nearest integer, ties to even. -/
def roundTE (q : ℚ) : Int :=
  let f := ⌊q⌋
  let r := qSub q (qOfInt f)
  if r < qHalf then f
  else if qHalf < r then f + 1
  else if f % 2 = 0 then f
  else f + 1

/-- Round an exact rational to the nearest IEEE-754 binary64 value (round to
nearest, ties to even), expressed as the exact rational that value denotes.
Faithful on the normal range, which covers every value in this development. -/
def fl64 (q : ℚ) : ℚ :=
  if q = 0 then 0
  else
    let aq := |q|
    let p : Int := exp2 aq - 52
    let v := qMul (qOfInt (roundTE (qDiv aq (pow2z p)))) (pow2z p)
    if q < 0 then -v else v

/-- JavaScript multiplication of two binary64 numbers. -/
def jsMul (a b : ℚ) : ℚ := fl64 (qMul a b)

/-! ### JavaScript `Number()` coercion of strings

`z.coerce.number()` applies JavaScript `Number()` to the raw field value.
On a string this trims whitespace, maps the empty string to `0`, and parses
a decimal literal, rounding it to binary64; any other string is NaN,
modelled as `none`.  (Hexadecimal, exponent and infinity forms never occur
in this repository and are not modelled.)  On `null` — a missing form field —
`Number(null)` is `0`. -/

/-- Numeric value of a digit character. -/
def digitVal (c : Char) : Nat := c.toNat - 48

/-- Value of a digit string, most significant first. -/
def natVal (cs : List Char) : Nat := cs.foldl (fun a c => a * 10 + digitVal c) 0

/-- Parse an unsigned decimal literal (`digits`, `digits.digits`, `digits.`
or `.digits`) as an exact rational; `none` (NaN) for anything else. -/
def parseUnsigned (cs : List Char) : Option ℚ :=
  match cs.span (fun c => c != '.') with
  | (intPart, []) =>
    if intPart ≠ [] ∧ intPart.all Char.isDigit then some (qOfNat (natVal intPart)) else none
  | (intPart, _ :: fracPart) =>
    if (intPart ≠ [] ∨ fracPart ≠ []) ∧ intPart.all Char.isDigit ∧ fracPart.all Char.isDigit
    then some (qAdd (qOfNat (natVal intPart)) (qDiv (qOfNat (natVal fracPart)) (qOfNat (10 ^ fracPart.length))))
    else none

/-- Parse an optionally signed decimal literal. -/
def parseSigned (cs : List Char) : Option ℚ :=
  match cs with
  | '+' :: rest => parseUnsigned rest
  | '-' :: rest => (parseUnsigned rest).map (fun q => -q)
  | _ => parseUnsigned cs

/-- JavaScript `Number(s)` on a string, `none` modelling NaN. -/
def jsNumberOfString (s : String) : Option ℚ :=
  let cs := ((s.data.dropWhile Char.isWhitespace).reverse.dropWhile Char.isWhitespace).reverse
  if cs = [] then some 0 else (parseSigned cs).map fl64

/-- JavaScript `Number(v)` on a `formData.get` result (`null` gives `0`). -/
def jsNumber : Option String → Option ℚ
  | none => some 0
  | some s => jsNumberOfString s

/-! ### Data model -/

/-- Invoice status enum: `pending` or `paid`. -/
inductive Status where
  | pending
  | paid
deriving DecidableEq

/-- One row of the `invoices` table. -/
structure Invoice where
  id : String
  customer_id : String
  amount : ℚ
  status : Status
  date : String
deriving DecidableEq

/-- The `invoices` table. -/
abbrev Db := List Invoice

/-- `formData.get` as seen by the actions: each field name yields a string or
`null` (`none`). -/
abbrev FormData := String → Option String

/-- The three parameterized SQL statements the actions can issue. -/
inductive Stmt where
  | insert (customerId : String) (amount : ℚ) (status : Status) (date : String)
  | update (customerId : String) (amount : ℚ) (status : Status) (id : String)
  | delete (id : String)
deriving DecidableEq

/-- Observable side effects of one request, in order of occurrence. -/
inductive Event where
  | sqlIssued (s : Stmt)
  | revalidate (path : String)
  | consoleLog (customerId amount status : Option String)
deriving DecidableEq

/-- Effect of each single SQL statement on the invoices table.  The database
assigns `newId` to an inserted row. -/
def applyStmt (newId : String) : Stmt → Db → Db
  | .insert c a s d, db => db ++ [⟨newId, c, a, s, d⟩]
  | .update c a s id, db =>
    db.map (fun r => if r.id = id then ⟨r.id, c, a, s, r.date⟩ else r)
  | .delete id, db => db.filter (fun r => decide (r.id ≠ id))

/-- External environment of one request: whether the SQL client throws (and
the raw error message it throws with), the server-clock date string, and the
row id the database assigns on INSERT. -/
structure Env where
  dbError : Option String
  today : String
  newId : String

/-- Mutable request state: the stored table and the event trace so far. -/
structure St where
  db : Db
  events : List Event
deriving DecidableEq

/-- The non-local exit raised by `next/navigation`'s `redirect`. -/
inductive Signal where
  | redirectSignal (path : String)
deriving DecidableEq

/-- Action monad: reader access to the environment, state over the database
and the event trace, and an escaping `Signal` for `redirect`. -/
def M (α : Type) := Env → St → Except Signal α × St

instance : Monad M where
  pure a := fun _ st => (.ok a, st)
  bind x f := fun env st =>
    match x env st with
    | (.ok a, st1) => f a env st1
    | (.error sig, st1) => (.error sig, st1)

/-- Run the one SQL statement: the attempt is recorded in the trace; on
success the statement's effect is applied, on failure (`env.dbError = some e`)
the raw error is handed to the surrounding `try`/`catch` and the table is
untouched. -/
def sqlRun (stmt : Stmt) : M (Except String Unit) := fun env st =>
  match env.dbError with
  | none => (.ok (.ok ()), ⟨applyStmt env.newId stmt st.db, st.events ++ [.sqlIssued stmt]⟩)
  | some e => (.ok (.error e), ⟨st.db, st.events ++ [.sqlIssued stmt]⟩)

/-- `revalidatePath`: records the cache-invalidation signal. -/
def revalidatePath (path : String) : M Unit := fun _ st =>
  (.ok (), ⟨st.db, st.events ++ [.revalidate path]⟩)

/-- `redirect` throws a signal; nothing after it executes. -/
def redirect (path : String) : M Unit := fun _ st =>
  (.error (.redirectSignal path), st)

/-- `console.log` of the raw form fields. -/
def consoleLog (c a s : Option String) : M Unit := fun _ st =>
  (.ok (), ⟨st.db, st.events ++ [.consoleLog c a s]⟩)

/-- `new Date().toISOString().split("T")[0]`, read from the server clock. -/
def getToday : M String := fun env st => (.ok env.today, st)

/-! ### Zod validation: `CreateInvoice = UpdateInvoice = FormSchema.omit(id, date)` -/

/-- Typed values produced by a successful `safeParse` of the create/update
schema. -/
structure ParsedFields where
  customerId : String
  amount : ℚ
  status : Status
deriving DecidableEq

/-- Per-field error messages of a failed `safeParse`. -/
structure FieldErrors where
  customerId : List String
  amount : List String
  status : List String
deriving DecidableEq

/-- `z.string` with `invalid_type_error`: any string passes (including the
empty string); `null` is an invalid type. -/
def checkCustomerId : Option String → Except (List String) String
  | some s => .ok s
  | none => .error ["Please select a customer"]

/-- `z.coerce.number()`: JavaScript `Number` coercion, rejecting NaN. -/
def checkAmount (v : Option String) : Except (List String) ℚ :=
  match jsNumber v with
  | some q => .ok q
  | none => .error ["Expected number, received nan"]

/-- `z.enum(["pending", "paid"])` with `invalid_type_error`. -/
def checkStatus : Option String → Except (List String) Status
  | none => .error ["Please select invoice status"]
  | some s =>
    if s = "pending" then .ok .pending
    else if s = "paid" then .ok .paid
    else .error ["Invalid enum value. Expected \x27pending\x27 | \x27paid\x27, received \x27" ++ s ++ "\x27"]

/-- Error list of one field check (empty when the field passed). -/
def errsOf {α : Type} : Except (List String) α → List String
  | .ok _ => []
  | .error es => es

/-- `CreateInvoice.safeParse` / `UpdateInvoice.safeParse` on the three fields
read from the form data. -/
def safeParseForm (f : FormData) : Except FieldErrors ParsedFields :=
  match checkCustomerId (f "customerId"), checkAmount (f "amount"), checkStatus (f "status") with
  | .ok c, .ok a, .ok s => .ok ⟨c, a, s⟩
  | rc, ra, rs => .error ⟨errsOf rc, errsOf ra, errsOf rs⟩

/-- Runtime JavaScript values, used to state the exact shape of the value the
actions return in their `errors` field. -/
inductive Js where
  | str (s : String)
  | arr (xs : List Js)
  | obj (fields : List (String × Js))

/-- `ZodError.format()`: an object with a top-level `_errors` array and, for
each field that has issues, a sub-object holding that field's `_errors`. -/
def formatErrors (e : FieldErrors) : Js :=
  .obj ([("_errors", .arr [])]
    ++ (if e.customerId = [] then []
        else [("customerId", .obj [("_errors", .arr (e.customerId.map .str))])])
    ++ (if e.amount = [] then []
        else [("amount", .obj [("_errors", .arr (e.amount.map .str))])])
    ++ (if e.status = [] then []
        else [("status", .obj [("_errors", .arr (e.status.map .str))])]))

/-- The runtime value the actions return (the declared TypeScript type is
`State`): an optional `errors` value and an optional `message`. -/
structure State where
  errors : Option Js
  message : Option String

/-- A JavaScript value that is an array of strings. -/
def isStrArr : Js → Bool
  | .arr xs => xs.all (fun j => match j with | .str _ => true | _ => false)
  | _ => false

/-- The shape the declared TypeScript `State` type gives to `errors`: an
object each of whose keys is one of the three form fields and each of whose
values is an array of strings. -/
def stateErrorsShape : Js → Bool
  | .obj fields => fields.all (fun kv =>
      (kv.1 == "customerId" || kv.1 == "amount" || kv.1 == "status") && isStrArr kv.2)
  | _ => false

/-! ### The server actions -/

/-- `createInvoice` (`dbtest.js` lines 52–91), including the unreachable
logging of `rawFormData` placed after `redirect` in the source. -/
def createInvoice (f : FormData) : M (Option State) := do
  match safeParseForm f with
  | .error e =>
    return some ⟨some (formatErrors e), some "Validation failed"⟩
  | .ok data =>
    let amountInCents := jsMul data.amount 100
    let date ← getToday
    match ← sqlRun (.insert data.customerId amountInCents data.status date) with
    | .error _ =>
      return some ⟨none, some "Database Error: failed to create invoice"⟩
    | .ok _ =>
      revalidatePath "/dashboard/invoices"
      redirect "/dashboard/invoices"
      consoleLog (f "customerId") (f "amount") (f "status")
      return none

/-- `updateInvoice` (`dbtest.js` lines 103–132). -/
def updateInvoice (id : String) (f : FormData) : M (Option State) := do
  match safeParseForm f with
  | .error e =>
    return some ⟨some (formatErrors e), some "Validation failed"⟩
  | .ok data =>
    let amountInCents := jsMul data.amount 100
    match ← sqlRun (.update data.customerId amountInCents data.status id) with
    | .error _ =>
      return some ⟨none, some "Database error: failed to update invoice"⟩
    | .ok _ =>
      revalidatePath "/dashboard/invoices"
      redirect "/dashboard/invoices"
      return none

/-- `deleteInvoice` (`dbtest.js` lines 140–147); `revalidatePath` sits inside
the `try`, after the SQL statement. -/
def deleteInvoice (id : String) : M (Option State) := do
  match ← sqlRun (.delete id) with
  | .error _ =>
    return some ⟨none, some "Database error: failed to delete invoice"⟩
  | .ok _ =>
    revalidatePath "/dashboard/invoices"
    return none

/-- Outcome of the external `signIn` delegate: normal return, a thrown
`AuthError` carrying its discriminant `type`, or some other thrown value. -/
inductive SignInOutcome where
  | ok
  | authError (ty : String)
  | otherError (e : String)

/-- `authenticate` (`dbtest.js` lines 148–165); `Except.error` models an
exception propagating out of the function unchanged. -/
def authenticate (outcome : SignInOutcome) : Except String (Option String) :=
  match outcome with
  | .ok => .ok none
  | .authError ty =>
    if ty = "CredentialsSignin" then .ok (some "Invalid credentials.")
    else .ok (some "Something went wrong.")
  | .otherError e => .error e

/-! ### Concrete fixtures -/

/-- A form submission holding the three fields the actions read. -/
def fdOf (c a s : Option String) : FormData := fun k =>
  if k = "customerId" then c
  else if k = "amount" then a
  else if k = "status" then s
  else none

/-- Form with amount `"50"`. -/
def fd50 : FormData := fdOf (some "c1") (some "50") (some "pending")

/-- Form with amount `"12.34"`. -/
def fd1234 : FormData := fdOf (some "c1") (some "12.34") (some "pending")

/-- Form with amount `"1.15"`. -/
def fd115 : FormData := fdOf (some "c1") (some "1.15") (some "pending")

/-- Form whose customerId is the empty string. -/
def fdEmptyCustomer : FormData := fdOf (some "") (some "50") (some "pending")

/-- Form with every field missing. -/
def fdMissingAll : FormData := fdOf none none none

/-- Environment with a reachable database. -/
def envOk : Env := ⟨none, "2024-01-01", "uuid-1"⟩

/-- Environment whose SQL client throws. -/
def envDown : Env := ⟨some "connection refused", "2024-01-01", "uuid-1"⟩

/-- Empty initial request state. -/
def st0 : St := ⟨[], []⟩

/-- A one-row table, for frame-condition witnesses. -/
def oneRowDb : Db := [⟨"inv-1", "c9", 500, .paid, "2023-12-31"⟩]

-- decidable equality of parse results, for concrete evaluation
deriving instance DecidableEq for Except

/-! ### Running the monad -/

/-- Unfolding `bind` of the action monad. -/
theorem M.run_bind {α β : Type} (x : M α) (g : α → M β) (env : Env) (st : St) :
    (x >>= g) env st =
      match x env st with
      | (.ok a, st1) => g a env st1
      | (.error sig, st1) => (.error sig, st1) := rfl

/-- Unfolding `pure` of the action monad. -/
theorem M.run_pure {α : Type} (a : α) (env : Env) (st : St) :
    (pure a : M α) env st = (.ok a, st) := rfl

/-! ### The kernel-computable arithmetic is rational arithmetic -/

/-- `qMul` is multiplication. -/
theorem qMul_eq (a b : ℚ) : qMul a b = a * b := by
  rw [qMul, Rat.mul_def, Rat.normalize_eq_mkRat]

/-- `qAdd` is addition. -/
theorem qAdd_eq (a b : ℚ) : qAdd a b = a + b := by
  rw [qAdd, Rat.add_def, Rat.normalize_eq_mkRat]

/-- `qInv` is the inverse. -/
theorem qInv_eq (a : ℚ) : qInv a = a⁻¹ := (Rat.inv_def a).symm

/-- `qDiv` is division. -/
theorem qDiv_eq (a b : ℚ) : qDiv a b = a / b := by
  rw [qDiv, qMul_eq, qInv_eq, div_eq_mul_inv]

/-- `qSub` is subtraction. -/
theorem qSub_eq (a b : ℚ) : qSub a b = a - b := by
  rw [qSub, qAdd_eq, sub_eq_add_neg]

/-- `qOfInt` is the integer cast. -/
theorem qOfInt_eq (n : Int) : qOfInt n = (n : ℚ) := by
  simp [qOfInt, Rat.mkRat_eq_div]

/-- `qOfNat` is the natural cast. -/
theorem qOfNat_eq (n : Nat) : qOfNat n = (n : ℚ) := by
  simp [qOfNat, Rat.mkRat_eq_div]

/-- `qHalf` is one half. -/
theorem qHalf_eq : qHalf = (1 : ℚ) / 2 := by
  rw [qHalf, Rat.mkRat_eq_div]
  norm_num

/-- `pow2z` is the integer power of two. -/
theorem pow2z_eq (e : Int) : pow2z e = (2 : ℚ) ^ e := by
  rw [pow2z]
  by_cases h : 0 ≤ e
  · rw [if_pos h, Rat.mkRat_eq_div]
    push_cast
    rw [← zpow_natCast (2 : ℚ) e.toNat, Int.toNat_of_nonneg h]
    norm_num
  · rw [if_neg h, Rat.mkRat_eq_div]
    have h2 : (2 : ℚ) ^ e = ((2 : ℚ) ^ (-e).toNat)⁻¹ := by
      rw [← zpow_natCast (2 : ℚ) (-e).toNat, ← zpow_neg]
      congr 1
      omega
    rw [h2]
    push_cast
    rw [one_div]

/-! ### Validation helper lemmas -/

/-- A successful customerId check means the field was present. -/
theorem checkCustomerId_ok {v : Option String} {c : String}
    (h : checkCustomerId v = .ok c) : v = some c := by
  cases v with
  | none => simp [checkCustomerId] at h
  | some s =>
    simp only [checkCustomerId, Except.ok.injEq] at h
    rw [h]

/-- A successful amount check means `Number` did not give NaN. -/
theorem checkAmount_ok {v : Option String} {q : ℚ}
    (h : checkAmount v = .ok q) : jsNumber v = some q := by
  unfold checkAmount at h
  cases hj : jsNumber v with
  | none => rw [hj] at h; simp at h
  | some q2 => rw [hj] at h; simp only [Except.ok.injEq] at h; rw [h]

/-- A successful status check means the field was `"pending"` or `"paid"`. -/
theorem checkStatus_ok {v : Option String} {s : Status}
    (h : checkStatus v = .ok s) : v = some "pending" ∨ v = some "paid" := by
  cases v with
  | none => simp [checkStatus] at h
  | some str =>
    simp only [checkStatus] at h
    split_ifs at h with h1 h2
    · left; rw [h1]
    · right; rw [h2]

/-- A failed customerId check carries a non-empty message list. -/
theorem checkCustomerId_error_ne {v : Option String} {es : List String}
    (h : checkCustomerId v = .error es) : es ≠ [] := by
  cases v with
  | none =>
    simp only [checkCustomerId, Except.error.injEq] at h
    rw [← h]
    simp
  | some s => simp [checkCustomerId] at h

/-- A failed amount check carries a non-empty message list. -/
theorem checkAmount_error_ne {v : Option String} {es : List String}
    (h : checkAmount v = .error es) : es ≠ [] := by
  unfold checkAmount at h
  cases hj : jsNumber v with
  | none =>
    rw [hj] at h
    simp only [Except.error.injEq] at h
    rw [← h]
    simp
  | some q => rw [hj] at h; simp at h

/-- A failed status check carries a non-empty message list. -/
theorem checkStatus_error_ne {v : Option String} {es : List String}
    (h : checkStatus v = .error es) : es ≠ [] := by
  cases v with
  | none =>
    simp only [checkStatus, Except.error.injEq] at h
    rw [← h]
    simp
  | some str =>
    simp only [checkStatus] at h
    split_ifs at h with h1 h2
    injection h with h
    rw [← h]
    simp

/-- Missing customerId fails its check. -/
theorem checkCustomerId_none : checkCustomerId none = .error ["Please select a customer"] := rfl

/-- A NaN amount fails its check. -/
theorem checkAmount_nan {v : Option String} (h : jsNumber v = none) :
    checkAmount v = .error ["Expected number, received nan"] := by
  unfold checkAmount
  rw [h]

/-- A status that is neither `"pending"` nor `"paid"` fails its check. -/
theorem checkStatus_invalid {v : Option String}
    (h : v ≠ some "pending" ∧ v ≠ some "paid") :
    ∃ es, checkStatus v = .error es ∧ es ≠ [] := by
  cases v with
  | none => exact ⟨_, rfl, by simp⟩
  | some str =>
    have h1 : ¬ str = "pending" := fun hs => h.1 (by rw [hs])
    have h2 : ¬ str = "paid" := fun hs => h.2 (by rw [hs])
    have hcs : checkStatus (some str)
        = .error ["Invalid enum value. Expected \x27pending\x27 | \x27paid\x27, received \x27" ++ str ++ "\x27"] := by
      simp only [checkStatus]
      rw [if_neg h1, if_neg h2]
    exact ⟨_, hcs, by simp⟩

/-- When some field check fails, `safeParse` fails with exactly the
per-field error lists. -/
theorem safeParseForm_error (f : FormData)
    (h : (∃ es, checkCustomerId (f "customerId") = .error es)
      ∨ (∃ es, checkAmount (f "amount") = .error es)
      ∨ (∃ es, checkStatus (f "status") = .error es)) :
    safeParseForm f = .error
      ⟨errsOf (checkCustomerId (f "customerId")),
       errsOf (checkAmount (f "amount")),
       errsOf (checkStatus (f "status"))⟩ := by
  unfold safeParseForm
  cases hc : checkCustomerId (f "customerId") with
  | error es => cases ha : checkAmount (f "amount") <;> cases hs : checkStatus (f "status") <;> simp [hc, ha, hs, errsOf]
  | ok c =>
    cases ha : checkAmount (f "amount") with
    | error es => cases hs : checkStatus (f "status") <;> simp [hc, ha, hs, errsOf]
    | ok a =>
      cases hs : checkStatus (f "status") with
      | error es => simp [hc, ha, hs, errsOf]
      | ok s =>
        rcases h with ⟨es, h⟩ | ⟨es, h⟩ | ⟨es, h⟩
        · rw [h] at hc; exact absurd hc (by simp)
        · rw [h] at ha; exact absurd ha (by simp)
        · rw [h] at hs; exact absurd hs (by simp)

/-! ### Run lemmas for the actions -/

/-- `createInvoice` on a validation failure: the state (table and trace) is
returned untouched. -/
theorem createInvoice_validation_error {f : FormData} {errs : FieldErrors} (env : Env) (st : St)
    (h : safeParseForm f = .error errs) :
    createInvoice f env st
      = (.ok (some ⟨some (formatErrors errs), some "Validation failed"⟩), st) := by
  unfold createInvoice
  rw [h]
  rfl

/-- `updateInvoice` on a validation failure. -/
theorem updateInvoice_validation_error {f : FormData} {errs : FieldErrors}
    (id : String) (env : Env) (st : St) (h : safeParseForm f = .error errs) :
    updateInvoice id f env st
      = (.ok (some ⟨some (formatErrors errs), some "Validation failed"⟩), st) := by
  unfold updateInvoice
  rw [h]
  rfl

/-- `createInvoice` on a validated input with a working database: one INSERT,
then the cache invalidation, then the redirect signal; the trailing
`console.log` never runs. -/
theorem createInvoice_run_ok {f : FormData} {data : ParsedFields} (env : Env) (st : St)
    (hp : safeParseForm f = .ok data) (he : env.dbError = none) :
    createInvoice f env st =
      (.error (.redirectSignal "/dashboard/invoices"),
       ⟨applyStmt env.newId
          (.insert data.customerId (jsMul data.amount 100) data.status env.today) st.db,
        st.events
          ++ [.sqlIssued (.insert data.customerId (jsMul data.amount 100) data.status env.today),
              .revalidate "/dashboard/invoices"]⟩) := by
  unfold createInvoice
  rw [hp]
  simp only [M.run_bind, M.run_pure, getToday, sqlRun, he, revalidatePath, redirect, consoleLog,
    List.append_assoc, List.cons_append, List.nil_append]

/-- `createInvoice` on a validated input with a throwing database: the fixed
message is returned, the table is untouched. -/
theorem createInvoice_run_dbfail {f : FormData} {data : ParsedFields} {e : String}
    (env : Env) (st : St) (hp : safeParseForm f = .ok data) (he : env.dbError = some e) :
    createInvoice f env st =
      (.ok (some ⟨none, some "Database Error: failed to create invoice"⟩),
       ⟨st.db,
        st.events
          ++ [.sqlIssued (.insert data.customerId (jsMul data.amount 100) data.status env.today)]⟩) := by
  unfold createInvoice
  rw [hp]
  simp only [M.run_bind, M.run_pure, getToday, sqlRun, he, revalidatePath, redirect, consoleLog,
    List.append_assoc, List.cons_append, List.nil_append]

/-- `updateInvoice` on a validated input with a working database. -/
theorem updateInvoice_run_ok {f : FormData} {data : ParsedFields}
    (id : String) (env : Env) (st : St)
    (hp : safeParseForm f = .ok data) (he : env.dbError = none) :
    updateInvoice id f env st =
      (.error (.redirectSignal "/dashboard/invoices"),
       ⟨applyStmt env.newId
          (.update data.customerId (jsMul data.amount 100) data.status id) st.db,
        st.events
          ++ [.sqlIssued (.update data.customerId (jsMul data.amount 100) data.status id),
              .revalidate "/dashboard/invoices"]⟩) := by
  unfold updateInvoice
  rw [hp]
  simp only [M.run_bind, M.run_pure, sqlRun, he, revalidatePath, redirect,
    List.append_assoc, List.cons_append, List.nil_append]

/-- `updateInvoice` on a validated input with a throwing database. -/
theorem updateInvoice_run_dbfail {f : FormData} {data : ParsedFields} {e : String}
    (id : String) (env : Env) (st : St)
    (hp : safeParseForm f = .ok data) (he : env.dbError = some e) :
    updateInvoice id f env st =
      (.ok (some ⟨none, some "Database error: failed to update invoice"⟩),
       ⟨st.db,
        st.events
          ++ [.sqlIssued (.update data.customerId (jsMul data.amount 100) data.status id)]⟩) := by
  unfold updateInvoice
  rw [hp]
  simp only [M.run_bind, M.run_pure, sqlRun, he, revalidatePath, redirect,
    List.append_assoc, List.cons_append, List.nil_append]

/-- `deleteInvoice` with a working database: one DELETE, then the cache
invalidation; a normal return (no redirect signal). -/
theorem deleteInvoice_run_ok {env : Env} (id : String) (st : St) (he : env.dbError = none) :
    deleteInvoice id env st =
      (.ok none,
       ⟨applyStmt env.newId (.delete id) st.db,
        st.events ++ [.sqlIssued (.delete id), .revalidate "/dashboard/invoices"]⟩) := by
  unfold deleteInvoice
  simp only [M.run_bind, M.run_pure, sqlRun, he, revalidatePath,
    List.append_assoc, List.cons_append, List.nil_append]

/-- `deleteInvoice` with a throwing database: the fixed message, no cache
invalidation, table untouched. -/
theorem deleteInvoice_run_dbfail {env : Env} {e : String} (id : String) (st : St)
    (he : env.dbError = some e) :
    deleteInvoice id env st =
      (.ok (some ⟨none, some "Database error: failed to delete invoice"⟩),
       ⟨st.db, st.events ++ [.sqlIssued (.delete id)]⟩) := by
  unfold deleteInvoice
  simp only [M.run_bind, M.run_pure, sqlRun, he, revalidatePath,
    List.append_assoc, List.cons_append, List.nil_append]

/-- Components of a successful `safeParse`. -/
theorem safeParseForm_ok {f : FormData} {data : ParsedFields} (h : safeParseForm f = .ok data) :
    checkCustomerId (f "customerId") = .ok data.customerId
    ∧ checkAmount (f "amount") = .ok data.amount
    ∧ checkStatus (f "status") = .ok data.status := by
  obtain ⟨c0, a0, s0⟩ := data
  unfold safeParseForm at h
  cases hc : checkCustomerId (f "customerId") with
  | error es =>
    rw [hc] at h
    cases ha : checkAmount (f "amount") <;> cases hs : checkStatus (f "status") <;>
      rw [ha, hs] at h <;> simp at h
  | ok c =>
    rw [hc] at h
    cases ha : checkAmount (f "amount") with
    | error es =>
      cases hs : checkStatus (f "status") <;> rw [ha, hs] at h <;> simp at h
    | ok a =>
      rw [ha] at h
      cases hs : checkStatus (f "status") with
      | error es => rw [hs] at h; simp at h
      | ok s =>
        rw [hs] at h
        simp only [Except.ok.injEq, ParsedFields.mk.injEq] at h
        obtain ⟨h1, h2, h3⟩ := h
        rw [← h1, ← h2, ← h3]
        exact ⟨rfl, rfl, rfl⟩

/-- Components of a failed `safeParse`: the error lists are exactly the
per-field check results. -/
theorem safeParseForm_error_fields {f : FormData} {errs : FieldErrors}
    (h : safeParseForm f = .error errs) :
    errs.customerId = errsOf (checkCustomerId (f "customerId"))
    ∧ errs.amount = errsOf (checkAmount (f "amount"))
    ∧ errs.status = errsOf (checkStatus (f "status")) := by
  unfold safeParseForm at h
  cases hc : checkCustomerId (f "customerId") with
  | error es =>
    rw [hc] at h
    cases ha : checkAmount (f "amount") <;> cases hs : checkStatus (f "status") <;>
      rw [ha, hs] at h <;> simp only [Except.error.injEq] at h <;>
      rw [← h] <;> simp [errsOf, hc, ha, hs]
  | ok c =>
    rw [hc] at h
    cases ha : checkAmount (f "amount") with
    | error es =>
      cases hs : checkStatus (f "status") <;> rw [ha, hs] at h <;>
        simp only [Except.error.injEq] at h <;> rw [← h] <;> simp [errsOf, hc, ha, hs]
    | ok a =>
      rw [ha] at h
      cases hs : checkStatus (f "status") with
      | error es =>
        rw [hs] at h
        simp only [Except.error.injEq] at h
        rw [← h]
        simp [errsOf, hc, ha, hs]
      | ok s => rw [hs] at h; simp at h

/-! ### The claims -/

/-- C2: for every form input with a missing customerId, a NaN amount, or a
status outside pending/paid, `createInvoice` and `updateInvoice` return the
validation-failure result whose error value carries a non-empty message list
for each offending field, and the request state — table and event trace — is
returned exactly as it was: no SQL statement is issued, storage is
untouched. -/
theorem C2_validation_error_no_sql (f : FormData) (env : Env) (st : St)
    (hoff : f "customerId" = none ∨ jsNumber (f "amount") = none
      ∨ (f "status" ≠ some "pending" ∧ f "status" ≠ some "paid")) :
    ∃ errs : FieldErrors,
      safeParseForm f = .error errs
      ∧ createInvoice f env st
          = (.ok (some ⟨some (formatErrors errs), some "Validation failed"⟩), st)
      ∧ (∀ id, updateInvoice id f env st
          = (.ok (some ⟨some (formatErrors errs), some "Validation failed"⟩), st))
      ∧ (f "customerId" = none → errs.customerId ≠ [])
      ∧ (jsNumber (f "amount") = none → errs.amount ≠ [])
      ∧ ((f "status" ≠ some "pending" ∧ f "status" ≠ some "paid") → errs.status ≠ []) := by
  have herr : safeParseForm f = .error
      ⟨errsOf (checkCustomerId (f "customerId")),
       errsOf (checkAmount (f "amount")),
       errsOf (checkStatus (f "status"))⟩ := by
    apply safeParseForm_error
    rcases hoff with h | h | h
    · exact Or.inl ⟨_, by rw [h]; rfl⟩
    · exact Or.inr (Or.inl ⟨_, checkAmount_nan h⟩)
    · rcases checkStatus_invalid h with ⟨es, hes, _⟩
      exact Or.inr (Or.inr ⟨es, hes⟩)
  refine ⟨_, herr, createInvoice_validation_error env st herr,
    fun id => updateInvoice_validation_error id env st herr, ?_, ?_, ?_⟩
  · intro h
    rw [h]
    simp [checkCustomerId, errsOf]
  · intro h
    rw [checkAmount_nan h]
    simp [errsOf]
  · intro h
    rcases checkStatus_invalid h with ⟨es, hes, hne⟩
    rw [hes]
    simpa [errsOf] using hne

/-- C2 witness: a form whose three fields are missing is rejected by both
actions without touching the state. -/
theorem C2_validation_error_no_sql_witness :
    ∃ errs : FieldErrors,
      safeParseForm fdMissingAll = .error errs
      ∧ createInvoice fdMissingAll envOk st0
          = (.ok (some ⟨some (formatErrors errs), some "Validation failed"⟩), st0)
      ∧ (∀ id, updateInvoice id fdMissingAll envOk st0
          = (.ok (some ⟨some (formatErrors errs), some "Validation failed"⟩), st0))
      ∧ (fdMissingAll "customerId" = none → errs.customerId ≠ [])
      ∧ (jsNumber (fdMissingAll "amount") = none → errs.amount ≠ [])
      ∧ ((fdMissingAll "status" ≠ some "pending" ∧ fdMissingAll "status" ≠ some "paid")
          → errs.status ≠ []) :=
  C2_validation_error_no_sql fdMissingAll envOk st0 (Or.inl (by decide))

/-- C3 counterexample: a form whose customerId is the empty string passes
validation — the empty string is accepted by `z.string()` — and with a
working database the INSERT is issued, contradicting the claim that an empty
customerId fails validation with a customerId field error. -/
theorem C3_counterexample :
    safeParseForm fdEmptyCustomer = .ok ⟨"", 50, .pending⟩
    ∧ (createInvoice fdEmptyCustomer envOk st0).2.events
        = [.sqlIssued (.insert "" 5000 .pending "2024-01-01"),
           .revalidate "/dashboard/invoices"] :=
  ⟨by decide, by decide⟩

/-- C3 amended: the validation step accepts customerId exactly when the field
is present (any string, the empty string included); a customerId field error
occurs exactly when the field is missing from the form. -/
theorem C3_customerId_presence (f : FormData) :
    (∀ errs, safeParseForm f = .error errs → (errs.customerId ≠ [] ↔ f "customerId" = none))
    ∧ (f "customerId" = none → ∀ data, safeParseForm f ≠ .ok data) := by
  constructor
  · intro errs herr
    obtain ⟨h1, _, _⟩ := safeParseForm_error_fields herr
    rw [h1]
    constructor
    · intro hne
      cases hv : f "customerId" with
      | none => rfl
      | some s =>
        rw [hv] at hne
        simp [checkCustomerId, errsOf] at hne
    · intro hv
      rw [hv]
      simp [checkCustomerId, errsOf]
  · intro hv data hok
    obtain ⟨h1, _, _⟩ := safeParseForm_ok hok
    rw [hv] at h1
    simp [checkCustomerId] at h1

/-- C3 witness: instantiating the amended claim on the all-missing form. -/
theorem C3_customerId_presence_witness :
    (["Please select a customer"] ≠ ([] : List String) ↔ fdMissingAll "customerId" = none)
    ∧ safeParseForm fdMissingAll ≠ .ok ⟨"c1", 50, Status.pending⟩ :=
  ⟨(C3_customerId_presence fdMissingAll).1
      ⟨["Please select a customer"], [], ["Please select invoice status"]⟩ (by decide),
   (C3_customerId_presence fdMissingAll).2 (by decide) ⟨"c1", 50, Status.pending⟩⟩

/-- C4: whenever the single SQL statement throws — whatever the raw error
`e` is — `createInvoice`, `updateInvoice` and `deleteInvoice` return exactly
their fixed message (capital E for create, lower-case e for update/delete),
the result does not depend on the raw storage error, and the stored table is
exactly what it was before the call (failure is all-or-nothing). -/
theorem C4_db_failure_fixed_messages (f : FormData) (data : ParsedFields) (e id : String)
    (env : Env) (st : St) (hp : safeParseForm f = .ok data) (he : env.dbError = some e) :
    (createInvoice f env st).1
        = .ok (some ⟨none, some "Database Error: failed to create invoice"⟩)
    ∧ (updateInvoice id f env st).1
        = .ok (some ⟨none, some "Database error: failed to update invoice"⟩)
    ∧ (deleteInvoice id env st).1
        = .ok (some ⟨none, some "Database error: failed to delete invoice"⟩)
    ∧ (createInvoice f env st).2.db = st.db
    ∧ (updateInvoice id f env st).2.db = st.db
    ∧ (deleteInvoice id env st).2.db = st.db := by
  rw [createInvoice_run_dbfail env st hp he, updateInvoice_run_dbfail id env st hp he,
    deleteInvoice_run_dbfail id st he]
  exact ⟨rfl, rfl, rfl, rfl, rfl, rfl⟩

/-- C4 witness: the three fixed messages on a concrete failing environment. -/
theorem C4_db_failure_fixed_messages_witness :
    (createInvoice fd50 envDown st0).1
        = .ok (some ⟨none, some "Database Error: failed to create invoice"⟩)
    ∧ (updateInvoice "inv-1" fd50 envDown st0).1
        = .ok (some ⟨none, some "Database error: failed to update invoice"⟩)
    ∧ (deleteInvoice "inv-1" envDown st0).1
        = .ok (some ⟨none, some "Database error: failed to delete invoice"⟩)
    ∧ (createInvoice fd50 envDown st0).2.db = st0.db
    ∧ (updateInvoice "inv-1" fd50 envDown st0).2.db = st0.db
    ∧ (deleteInvoice "inv-1" envDown st0).2.db = st0.db :=
  C4_db_failure_fixed_messages fd50 ⟨"c1", 50, .pending⟩ "connection refused" "inv-1"
    envDown st0 (by decide) rfl

/-- C5: on persistence success `createInvoice` first records the cache
invalidation of the invoices listing and then exits abnormally with the
redirect signal to the invoices listing page; the logging of `rawFormData`
placed after `redirect` in the source never executes — no `consoleLog` event
ever appears in the trace. -/
theorem C5_create_success_redirect (f : FormData) (data : ParsedFields) (env : Env) (db : Db)
    (hp : safeParseForm f = .ok data) (he : env.dbError = none) :
    createInvoice f env ⟨db, []⟩ =
      (.error (.redirectSignal "/dashboard/invoices"),
       ⟨applyStmt env.newId
          (.insert data.customerId (jsMul data.amount 100) data.status env.today) db,
        [.sqlIssued (.insert data.customerId (jsMul data.amount 100) data.status env.today),
         .revalidate "/dashboard/invoices"]⟩)
    ∧ (∀ c a s, Event.consoleLog c a s ∉ (createInvoice f env ⟨db, []⟩).2.events) := by
  have h := createInvoice_run_ok env ⟨db, []⟩ hp he
  constructor
  · simpa using h
  · intro c a s
    rw [h]
    simp

/-- C5 witness: the concrete "50" form on the empty table. -/
theorem C5_create_success_redirect_witness :
    createInvoice fd50 envOk ⟨[], []⟩ =
      (.error (.redirectSignal "/dashboard/invoices"),
       ⟨applyStmt envOk.newId (.insert "c1" (jsMul 50 100) Status.pending envOk.today) [],
        [.sqlIssued (.insert "c1" (jsMul 50 100) Status.pending envOk.today),
         .revalidate "/dashboard/invoices"]⟩)
    ∧ (∀ c a s, Event.consoleLog c a s ∉ (createInvoice fd50 envOk ⟨[], []⟩).2.events) :=
  C5_create_success_redirect fd50 ⟨"c1", 50, .pending⟩ envOk [] (by decide) rfl

/-- C6: for every validated input, `updateInvoice` issues exactly the one
UPDATE statement, whose effect maps each row of the table to itself when its
id differs from the target and otherwise rewrites only customer_id, amount
and status; every row keeps its id and its date, and when no row matches the
table is unchanged while the action still succeeds with the redirect. -/
theorem C6_update_frame (f : FormData) (data : ParsedFields) (id : String) (env : Env) (db : Db)
    (hp : safeParseForm f = .ok data) (he : env.dbError = none) :
    updateInvoice id f env ⟨db, []⟩ =
      (.error (.redirectSignal "/dashboard/invoices"),
       ⟨applyStmt env.newId (.update data.customerId (jsMul data.amount 100) data.status id) db,
        [.sqlIssued (.update data.customerId (jsMul data.amount 100) data.status id),
         .revalidate "/dashboard/invoices"]⟩)
    ∧ applyStmt env.newId (.update data.customerId (jsMul data.amount 100) data.status id) db
        = db.map (fun r => if r.id = id
            then ⟨r.id, data.customerId, jsMul data.amount 100, data.status, r.date⟩ else r)
    ∧ (∀ r : Invoice, r.id ≠ id →
        (if r.id = id
          then (⟨r.id, data.customerId, jsMul data.amount 100, data.status, r.date⟩ : Invoice)
          else r) = r)
    ∧ (∀ r : Invoice,
        ((if r.id = id
          then (⟨r.id, data.customerId, jsMul data.amount 100, data.status, r.date⟩ : Invoice)
          else r)).id = r.id
        ∧ ((if r.id = id
          then (⟨r.id, data.customerId, jsMul data.amount 100, data.status, r.date⟩ : Invoice)
          else r)).date = r.date)
    ∧ ((∀ r ∈ db, r.id ≠ id) →
        applyStmt env.newId (.update data.customerId (jsMul data.amount 100) data.status id) db
          = db) := by
  refine ⟨by simpa using updateInvoice_run_ok id env ⟨db, []⟩ hp he, rfl, ?_, ?_, ?_⟩
  · intro r hne
    rw [if_neg hne]
  · intro r
    constructor <;> (split_ifs <;> rfl)
  · intro h
    show db.map _ = db
    induction db with
    | nil => rfl
    | cons r t ih =>
      have hr : r.id ≠ id := h r (by simp)
      simp only [List.map_cons, if_neg hr, List.cons.injEq]
      exact ⟨by trivial, ih (fun x hx => h x (by simp [hx]))⟩

/-- C6 witness: updating an id absent from a one-row table leaves the table
unchanged and still redirects. -/
theorem C6_update_frame_witness :
    updateInvoice "no-such-id" fd50 envOk ⟨oneRowDb, []⟩ =
      (.error (.redirectSignal "/dashboard/invoices"),
       ⟨applyStmt envOk.newId (.update "c1" (jsMul 50 100) Status.pending "no-such-id") oneRowDb,
        [.sqlIssued (.update "c1" (jsMul 50 100) Status.pending "no-such-id"),
         .revalidate "/dashboard/invoices"]⟩)
    ∧ applyStmt envOk.newId (.update "c1" (jsMul 50 100) Status.pending "no-such-id") oneRowDb
        = oneRowDb.map (fun r => if r.id = "no-such-id"
            then ⟨r.id, "c1", jsMul 50 100, Status.pending, r.date⟩ else r)
    ∧ (∀ r : Invoice, r.id ≠ "no-such-id" →
        (if r.id = "no-such-id"
          then (⟨r.id, "c1", jsMul 50 100, Status.pending, r.date⟩ : Invoice)
          else r) = r)
    ∧ (∀ r : Invoice,
        ((if r.id = "no-such-id"
          then (⟨r.id, "c1", jsMul 50 100, Status.pending, r.date⟩ : Invoice)
          else r)).id = r.id
        ∧ ((if r.id = "no-such-id"
          then (⟨r.id, "c1", jsMul 50 100, Status.pending, r.date⟩ : Invoice)
          else r)).date = r.date)
    ∧ ((∀ r ∈ oneRowDb, r.id ≠ "no-such-id") →
        applyStmt envOk.newId (.update "c1" (jsMul 50 100) Status.pending "no-such-id") oneRowDb
          = oneRowDb) :=
  C6_update_frame fd50 ⟨"c1", 50, .pending⟩ "no-such-id" envOk oneRowDb (by decide) rfl

/-- C7: `deleteInvoice` performs no field validation — for every id, with a
working database, it issues exactly the one DELETE, records the cache
invalidation, and returns normally (no redirect signal); when no row has the
target id the table is unchanged and the call still succeeds. -/
theorem C7_delete_no_validation (id : String) (env : Env) (db : Db) (he : env.dbError = none) :
    deleteInvoice id env ⟨db, []⟩ =
      (.ok none,
       ⟨db.filter (fun r => decide (r.id ≠ id)),
        [.sqlIssued (.delete id), .revalidate "/dashboard/invoices"]⟩)
    ∧ ((∀ r ∈ db, r.id ≠ id) → db.filter (fun r => decide (r.id ≠ id)) = db) := by
  constructor
  · simpa [applyStmt] using deleteInvoice_run_ok id ⟨db, []⟩ he
  · intro h
    apply List.filter_eq_self.mpr
    intro a ha
    exact decide_eq_true (h a ha)

/-- C7 witness: deleting an id absent from a one-row table. -/
theorem C7_delete_no_validation_witness :
    deleteInvoice "no-such-id" envOk ⟨oneRowDb, []⟩ =
      (.ok none,
       ⟨oneRowDb.filter (fun r => decide (r.id ≠ "no-such-id")),
        [.sqlIssued (.delete "no-such-id"), .revalidate "/dashboard/invoices"]⟩)
    ∧ ((∀ r ∈ oneRowDb, r.id ≠ "no-such-id") →
        oneRowDb.filter (fun r => decide (r.id ≠ "no-such-id")) = oneRowDb) :=
  C7_delete_no_validation "no-such-id" envOk oneRowDb rfl

/-- C8: `authenticate` maps an `AuthError` of type `CredentialsSignin` to
exactly "Invalid credentials.", maps every other `AuthError` to exactly
"Something went wrong.", and re-raises any non-`AuthError` exception
unchanged. -/
theorem C8_authenticate_mapping :
    authenticate (.authError "CredentialsSignin") = .ok (some "Invalid credentials.")
    ∧ (∀ ty, ty ≠ "CredentialsSignin"
        → authenticate (.authError ty) = .ok (some "Something went wrong."))
    ∧ (∀ e, authenticate (.otherError e) = .error e) := by
  refine ⟨rfl, ?_, fun e => rfl⟩
  intro ty h
  show (if ty = "CredentialsSignin"
      then (Except.ok (some "Invalid credentials.") : Except String (Option String))
      else .ok (some "Something went wrong.")) = .ok (some "Something went wrong.")
  rw [if_neg h]

/-- C8 witness: a non-credentials auth error yields the generic message. -/
theorem C8_authenticate_mapping_witness :
    authenticate (.authError "CallbackRouteError") = .ok (some "Something went wrong.") :=
  C8_authenticate_mapping.2.1 "CallbackRouteError" (by decide)

/-- C10: when the DELETE statement throws, `deleteInvoice` returns the fixed
message and the trace gains only the attempted SQL statement — the cache
invalidation signal is never issued on the error path. -/
theorem C10_delete_error_no_revalidate (id e : String) (env : Env) (st : St)
    (he : env.dbError = some e) :
    deleteInvoice id env st =
      (.ok (some ⟨none, some "Database error: failed to delete invoice"⟩),
       ⟨st.db, st.events ++ [.sqlIssued (.delete id)]⟩)
    ∧ (∀ p, Event.revalidate p ∈ (deleteInvoice id env st).2.events
        → Event.revalidate p ∈ st.events) := by
  have h := deleteInvoice_run_dbfail id st he
  refine ⟨h, ?_⟩
  intro p hp
  rw [h] at hp
  simpa using hp

/-- C10 witness: the failing delete on the empty trace issues no cache
invalidation at all. -/
theorem C10_delete_error_no_revalidate_witness :
    deleteInvoice "inv-1" envDown st0 =
      (.ok (some ⟨none, some "Database error: failed to delete invoice"⟩),
       ⟨st0.db, st0.events ++ [.sqlIssued (.delete "inv-1")]⟩)
    ∧ (∀ p, Event.revalidate p ∈ (deleteInvoice "inv-1" envDown st0).2.events
        → Event.revalidate p ∈ st0.events) :=
  C10_delete_error_no_revalidate "inv-1" "connection refused" envDown st0 rfl

/-- C9 evidence: on the all-missing form, `createInvoice` returns the
`ZodError.format()` value — an object with a top-level `_errors` array whose
field entries are nested objects carrying `_errors` — and that value does not
have the shape the declared `State` type requires (field name mapped directly
to a list of strings).  The source returns `error.format()` where its own
`State` type demands `flatten()`-style field lists. -/
theorem C9_format_breaks_state_shape :
    createInvoice fdMissingAll envOk st0 =
      (.ok (some ⟨some (Js.obj
          [("_errors", .arr []),
           ("customerId", .obj [("_errors", .arr [.str "Please select a customer"])]),
           ("status", .obj [("_errors", .arr [.str "Please select invoice status"])])]),
        some "Validation failed"⟩), st0)
    ∧ stateErrorsShape (Js.obj
          [("_errors", .arr []),
           ("customerId", .obj [("_errors", .arr [.str "Please select a customer"])]),
           ("status", .obj [("_errors", .arr [.str "Please select invoice status"])])]) = false :=
  ⟨rfl, rfl⟩

/-- C1 counterexample: on the valid form whose amount is `"1.15"`, the
coerced amount is the binary64 value `fl64(1.15) = 2589569785738035 / 2^51`,
`round(amount * 100)` is `115`, but the amount the INSERT persists is
`8092405580431359 / 2^46 = 114.99999999999999 ≠ 115`: the code multiplies
by `100` in binary64 and never rounds. -/
theorem C1_counterexample :
    (createInvoice fd115 envOk st0).2.events
      = [.sqlIssued (.insert "c1" (mkRat 8092405580431359 70368744177664)
          Status.pending "2024-01-01"),
         .revalidate "/dashboard/invoices"]
    ∧ jsNumber (fd115 "amount") = some (mkRat 2589569785738035 2251799813685248)
    ∧ roundTE (qMul (mkRat 2589569785738035 2251799813685248) 100) = 115
    ∧ mkRat 8092405580431359 70368744177664 ≠ (115 : ℚ) :=
  ⟨by decide, by decide, by decide, by decide⟩

/-- C1 amended: for every input that passes validation, `createInvoice` and
`updateInvoice` both derive the persisted amount as the binary64 product
`fl64 (amount * 100)` — the IEEE-754 result of `amount * 100`, with no
rounding to an integer — and the input string `"12.34"` does yield exactly
`1234` cents. -/
theorem C1_amount_derivation (f : FormData) (data : ParsedFields) (id : String)
    (env : Env) (st : St) (hp : safeParseForm f = .ok data) (he : env.dbError = none) :
    (createInvoice f env st).2.events
      = st.events
        ++ [.sqlIssued (.insert data.customerId (fl64 (data.amount * 100)) data.status env.today),
            .revalidate "/dashboard/invoices"]
    ∧ (updateInvoice id f env st).2.events
      = st.events
        ++ [.sqlIssued (.update data.customerId (fl64 (data.amount * 100)) data.status id),
            .revalidate "/dashboard/invoices"]
    ∧ (createInvoice fd1234 envOk st0).2.events
      = [.sqlIssued (.insert "c1" 1234 .pending "2024-01-01"),
         .revalidate "/dashboard/invoices"] := by
  have hj : jsMul data.amount 100 = fl64 (data.amount * 100) := by rw [jsMul, qMul_eq]
  refine ⟨?_, ?_, by decide⟩
  · rw [createInvoice_run_ok env st hp he, hj]
  · rw [updateInvoice_run_ok id env st hp he, hj]

/-- C1 witness: the derivation instantiated on the `"50"` form (5000 cents)
and the `"12.34"` form (1234 cents). -/
theorem C1_amount_derivation_witness :
    (createInvoice fd50 envOk st0).2.events
      = st0.events
        ++ [.sqlIssued (.insert "c1" (fl64 ((50 : ℚ) * 100)) Status.pending envOk.today),
            .revalidate "/dashboard/invoices"]
    ∧ (updateInvoice "inv-1" fd50 envOk st0).2.events
      = st0.events
        ++ [.sqlIssued (.update "c1" (fl64 ((50 : ℚ) * 100)) Status.pending "inv-1"),
            .revalidate "/dashboard/invoices"]
    ∧ (createInvoice fd1234 envOk st0).2.events
      = [.sqlIssued (.insert "c1" 1234 .pending "2024-01-01"),
         .revalidate "/dashboard/invoices"] :=
  C1_amount_derivation fd50 ⟨"c1", 50, .pending⟩ "inv-1" envOk st0 (by decide) rfl
